import Mathlib

/-!
Verification of the mapdataBot POI-consolidation pipeline.

The definitions below are a shallow embedding of the Python sources:
`build_central_db.py`, `stats_deduped_no_latlon.py`,
`dedupe_combined_places.py` and `upload_poi_to_pg.py`.

Modelling conventions:
* a pandas cell is a `Cell`: a number, a string, or the missing marker `NaN`
  (`Cell.na`); `pd.to_numeric with errors coerce` becomes `toNumeric`,
  returning `none` for values coerced to `NaN`;
* machine floats are modelled as `ℚ` (no claim here depends on rounding,
  and the source data never exercises infinities);
* a dataframe is a list of rows; a column is present when some row has the
  key, matching `pd.json_normalize`, and a row lacking a present column
  carries `Cell.na` there;
* Python exceptions are modelled with `Except`/`Option`.
-/

namespace MapDataBot

/-- A single pandas cell: numeric value, string value, or the missing marker
(`NaN` / `pd.NA`). -/
inductive Cell where
  | num (q : ℚ)
  | str (s : String)
  | na
deriving DecidableEq

/-- A flattened record: association list from dotted column names to cells,
as produced by `pd.json_normalize(entries, sep=".")`. -/
abbrev Entry := List (String × Cell)

/-- Key lookup in a flattened record (first binding wins, as for unique
pandas column labels). -/
def getVal (r : Entry) (c : String) : Option Cell :=
  (r.find? (fun p => p.1 = c)).map Prod.snd

/-- The cell a row holds in column `c` of a dataframe containing it:
rows lacking a column carry the missing marker. -/
def cellAt (r : Entry) (c : String) : Cell :=
  (getVal r c).getD Cell.na

/-- A column is present in a dataframe when some row has the key
(`pd.json_normalize` takes the union of keys). -/
def hasColumn (df : List Entry) (c : String) : Bool :=
  df.any (fun r => (getVal r c).isSome)

/-- Whitespace recognized by Python's `float()` / `str.strip()` on the
character sets this data uses. -/
def isSpace (c : Char) : Bool :=
  c = ' ' || c = '\t' || c = '\n' || c = '\r'

/-- Strip leading and trailing whitespace from a character list. -/
def trimL (l : List Char) : List Char :=
  ((l.dropWhile isSpace).reverse.dropWhile isSpace).reverse

/-- Accumulate a decimal digit string into a natural number; `none` on a
non-digit. -/
def parseNatAux : List Char → ℕ → Option ℕ
  | [], acc => some acc
  | c :: cs, acc =>
    if c.isDigit then parseNatAux cs (10 * acc + (c.toNat - '0'.toNat))
    else none

/-- Parse an (already sign-stripped) decimal literal `digits[.digits]`,
models Python `float()` on the decimal literals this dataset contains. -/
def parseDecimal (l : List Char) : Option ℚ :=
  let intCs := l.takeWhile Char.isDigit
  let rest := l.dropWhile Char.isDigit
  match rest with
  | [] =>
    if intCs.isEmpty then none
    else (parseNatAux intCs 0).map (fun n => (n : ℚ))
  | '.' :: fracCs =>
    if fracCs.all Char.isDigit && !(intCs.isEmpty && fracCs.isEmpty) then
      match parseNatAux intCs 0, parseNatAux fracCs 0 with
      | some i, some f => some ((i : ℚ) + (f : ℚ) / (10 : ℚ) ^ fracCs.length)
      | _, _ => none
    else none
  | _ => none

/-- Python `float(s)`: optional surrounding whitespace, optional sign,
then a decimal literal; `none` models a raised `ValueError` (and a
`NaN` result of `pd.to_numeric with errors coerce`). -/
def parsePyFloat (s : String) : Option ℚ :=
  match trimL s.toList with
  | '-' :: rest => (parseDecimal rest).map (fun q => -q)
  | '+' :: rest => parseDecimal rest
  | rest => parseDecimal rest

/-- `pd.to_numeric on x with errors coerce` on one cell: numbers pass
through, numeric strings are parsed, everything else coerces to `NaN`. -/
def toNumeric (c : Cell) : Option ℚ :=
  match c with
  | Cell.num q => some q
  | Cell.str s => parsePyFloat s
  | Cell.na => none

/-! ### Coordinate canonicalizer (`build_central_db.extract_lat_lon_columns`) -/

/-- The latitude candidate columns, in priority order
(`build_central_db.LAT_CANDIDATES`). -/
def LAT_CANDIDATES : List String :=
  ["lat", "geometry.location.lat", "geometry.lat", "location.lat",
   "coordinates.lat", "latitude"]

/-- The longitude candidate columns, in priority order
(`build_central_db.LON_CANDIDATES`). -/
def LON_CANDIDATES : List String :=
  ["lon", "lng", "geometry.location.lng", "geometry.lng", "location.lng",
   "coordinates.lng", "longitude"]

/-- The candidate columns actually present in the dataframe, keeping the
priority order (the comprehension `[c for c in CANDIDATES if c in df.columns]`). -/
def presentSources (cands : List String) (df : List Entry) : List String :=
  cands.filter (fun c => hasColumn df c)

/-- `df[sources].apply(to_numeric).bfill(axis=1).iloc[:, 0]` on one row:
the first non-`NaN` value along the given column order. -/
def bfillFirst (vals : List (Option ℚ)) : Option ℚ :=
  vals.findSome? id

/-- The canonical coordinate `extract_lat_lon_columns` computes for row `r`
of dataframe `df` along one axis: backfill over the present candidate
columns after numeric coercion, `NaN` when no source column exists. -/
def extractCoord (cands : List String) (df : List Entry) (r : Entry) : Option ℚ :=
  bfillFirst ((presentSources cands df).map (fun c => toNumeric (cellAt r c)))

/-- A row of `build_central_db` after `extract_lat_lon_columns`: the original
flattened record plus the canonical `lat` and `lon` cells. -/
structure CanonRow where
  entry : Entry
  lat : Option ℚ
  lon : Option ℚ
deriving DecidableEq

/-- `extract_lat_lon_columns`: augment every row of the dataframe with the
canonical `lat` and `lon` columns. -/
def extract_lat_lon_columns (df : List Entry) : List CanonRow :=
  df.map (fun r => ⟨r, extractCoord LAT_CANDIDATES df r,
                      extractCoord LON_CANDIDATES df r⟩)

/-- `series.between(lo, hi, inclusive="both")` on one value: `False` on
`NaN`, the two-sided comparison otherwise. -/
def betweenB (x : Option ℚ) (lo hi : ℚ) : Bool :=
  match x with
  | some v => decide (lo ≤ v) && decide (v ≤ hi)
  | none => false

/-- `np.isfinite` on one value: `NaN` (and, in the source, infinities) are
not finite; every rational of the model is. -/
def isFiniteB (x : Option ℚ) : Bool :=
  x.isSome

/-- `build_central_db.filter_valid_lat_lon`: keep rows whose canonical
coordinates are finite and inside the valid ranges. -/
def filter_valid_lat_lon (rows : List CanonRow) : List CanonRow :=
  rows.filter (fun r =>
    betweenB r.lat (-90) 90 && betweenB r.lon (-180) 180 &&
    (isFiniteB r.lat && isFiniteB r.lon))

/-- The resolution rule as the specification words it: scan the candidate
list left to right and return the first value that is present and
numerically parseable, skipping absent and non-numeric candidates. -/
def firstNumeric (cands : List String) (r : Entry) : Option ℚ :=
  match cands with
  | [] => none
  | c :: rest =>
    match toNumeric (cellAt r c) with
    | some q => some q
    | none => firstNumeric rest r

/-! ### Address synthesis and deduplication
(`stats_deduped_no_latlon.build_address_column`, `dedupe_combined_places.main`,
`stats_deduped_no_latlon.main`) -/

/-- Rendering of a float by Python string conversion; the claims only
constrain the surrounding pattern, never the digits, so the model uses
the rational's own rendering. -/
def pyFloatRepr (q : ℚ) : String := toString q

/-- `astype(str)` on one cell (`str()` of a float for numbers, the
`"nan"` rendering for a missing value). -/
def pyStr (c : Cell) : String :=
  match c with
  | Cell.str s => s
  | Cell.num q => pyFloatRepr q
  | Cell.na => "nan"

/-- `series.notna()` on one cell: everything but the missing marker. -/
def notNA (c : Cell) : Bool :=
  match c with
  | Cell.na => false
  | _ => true

/-- `series.fillna("")` on one cell. -/
def fillNA (c : Cell) : Cell :=
  if notNA c then c else Cell.str ""

/-- `stats_deduped_no_latlon.build_address_column` on one row (the same
rule is inlined in `dedupe_combined_places.main`): prefer the
`formatted_address` cell where it is not `NaN`, else the `vicinity` cell,
then fill remaining `NaN` with the empty string; when a column is absent
from the whole dataframe its branch is skipped. -/
def build_address_column (df : List Entry) (r : Entry) : Cell :=
  if hasColumn df "formatted_address" then
    let f := cellAt r "formatted_address"
    let a := if hasColumn df "vicinity" then
               (if notNA f then f else cellAt r "vicinity")
             else f
    fillNA a
  else if hasColumn df "vicinity" then fillNA (cellAt r "vicinity")
  else Cell.str ""

/-- The deduplication identity key of a row: `name` and the synthesized
address, both cast to strings (`astype(str)`). -/
def statsKey (df : List Entry) (r : Entry) : String × String :=
  (pyStr (cellAt r "name"), pyStr (build_address_column df r))

/-- Scan underlying `drop_duplicates(subset, keep="first")`: keep a row
when its key has not been seen yet. -/
def dedupAux {α κ : Type} [DecidableEq κ] (key : α → κ) (seen : List κ) :
    List α → List α
  | [] => []
  | x :: xs =>
    if key x ∈ seen then dedupAux key seen xs
    else x :: dedupAux key (key x :: seen) xs

/-- `df.drop_duplicates(subset=[...], keep="first")`: first occurrence
per key, in scan order. -/
def drop_duplicates {α κ : Type} [DecidableEq κ] (key : α → κ)
    (xs : List α) : List α :=
  dedupAux key [] xs

/-- A record whose only latitude candidate carries the out-of-range
string `"91"` (the scenario row of the spec). -/
def c2row : Entry :=
  [("name", Cell.str "X"), ("lat", Cell.str "91"), ("lon", Cell.str "10")]

/-- The one-file dataframe holding just the out-of-range row. -/
def c2df : List Entry := [c2row]

/-- Scenario row: a named place with a real formatted address. -/
def c3row1 : Entry :=
  [("name", Cell.str "City Hospital"), ("formatted_address", Cell.str "12 Main St")]

/-- Scenario row: the same name, a present-but-empty `formatted_address`,
and a `vicinity` value. -/
def c3row2 : Entry :=
  [("name", Cell.str "City Hospital"), ("formatted_address", Cell.str ""),
   ("vicinity", Cell.str "Main St Area")]

/-- The two-row scenario dataframe for the dedup-identity claims. -/
def c3df : List Entry := [c3row1, c3row2]

/-! ### Record loader (`build_central_db.load_entries`,
`stats_deduped_no_latlon.load_entries`) -/

/-- A parsed JSON value as `json.load` returns it. -/
inductive Json where
  | arr (xs : List Json)
  | obj (fields : List (String × Json))
  | str (s : String)
  | num (q : ℚ)
  | bool (b : Bool)
  | null

/-- `dict.get(k)`: the value bound to `k`, `None` when absent (dict keys
are unique, so first binding wins). -/
def jsonGet (fs : List (String × Json)) (k : String) : Option Json :=
  (fs.find? (fun p => p.1 = k)).map Prod.snd

/-- The fixed ordered wrapper-key list `("results", "data", "items",
"places")` the loader probes on a mapping. -/
def wrapperKeys : List String := ["results", "data", "items", "places"]

/-- The loop over wrapper keys: the first key whose value is a list
yields that list. -/
def firstListVal (fs : List (String × Json)) : List String → Option (List Json)
  | [] => none
  | k :: ks =>
    match jsonGet fs k with
    | some (Json.arr v) => some v
    | _ => firstListVal fs ks

/-- `load_entries` on an already-parsed value: a list is used directly; a
mapping is probed for the wrapper keys and otherwise treated as a single
record; any other shape yields the empty sequence. -/
def load_entries (data : Json) : List Json :=
  match data with
  | Json.arr xs => xs
  | Json.obj fs => (firstListVal fs wrapperKeys).getD [Json.obj fs]
  | _ => []

/-- `load_entries` on a whole file: `none` stands for a file whose text
`json.load` cannot parse, and `Except.error` for the uncaught
`JSONDecodeError` that then propagates out of the function. -/
def load_entries_file (parsed : Option Json) : Except Unit (List Json) :=
  match parsed with
  | none => Except.error ()
  | some j => Except.ok (load_entries j)

/-! ### Filename metadata (`build_central_db.parse_filename_info`,
`stats_deduped_no_latlon.parse_filename_info`) -/

/-- `str.startswith(p)` over character lists. -/
def startsWithL : List Char → List Char → Bool
  | _, [] => true
  | [], _ :: _ => false
  | c :: cs, p :: ps => c = p && startsWithL cs ps

/-- `str.endswith(p)` over character lists. -/
def endsWithL (s p : List Char) : Bool :=
  startsWithL s.reverse p.reverse

/-- `name[:-n]`: drop the last `n` characters. -/
def dropEndL (n : ℕ) (l : List Char) : List Char :=
  l.take (l.length - n)

/-- `core.split("_")`: underscore-separated fragments; the empty string
yields `[""]` and empty fragments are preserved, as in Python. -/
def splitU : List Char → List (List Char)
  | [] => [[]]
  | c :: cs =>
    if c = '_' then [] :: splitU cs
    else
      match splitU cs with
      | [] => [[c]]
      | g :: gs => (c :: g) :: gs

/-- `"_".join(parts)`. -/
def joinU : List (List Char) → List Char
  | [] => []
  | [l] => l
  | l :: ls => l ++ '_' :: joinU ls

/-- The metadata triple parsed from a result filename. -/
structure FileMeta where
  location_type : String
  area : String
  city : String
deriving DecidableEq

/-- The token-positional part of `build_central_db.parse_filename_info`:
fewer than two tokens degrade to `unknown`/`unknown` with the last token
echoed as the city; otherwise first token, middle tokens rejoined with
underscores, last token. -/
def parseCore (parts : List (List Char)) : FileMeta :=
  if parts.length < 2 then
    { location_type := "unknown", area := "unknown",
      city := match parts.getLast? with
              | some t => String.mk t
              | none => "unknown" }
  else
    { location_type := String.mk (parts.headD []),
      area := if 2 < parts.length then String.mk (joinU ((parts.drop 1).dropLast))
              else "",
      city := String.mk ((parts.getLast?).getD []) }

/-- `build_central_db.parse_filename_info`: check the
`results_*.json` envelope, slice it off, split the core on underscores
and read the tokens positionally. -/
def parse_filename_info (filename : String) : FileMeta :=
  let name := filename.toList
  if startsWithL name "results_".toList && endsWithL name ".json".toList then
    parseCore (splitU (dropEndL 5 (name.drop 8)))
  else
    { location_type := "unknown", area := "unknown", city := "unknown" }

/-- Token handling of `stats_deduped_no_latlon.parse_filename_info`: same
as `parseCore` except that the degraded area is the empty string. -/
def parseCoreStats (parts : List (List Char)) : FileMeta :=
  if parts.length < 2 then
    { location_type := "unknown", area := "",
      city := match parts.getLast? with
              | some t => String.mk t
              | none => "unknown" }
  else
    { location_type := String.mk (parts.headD []),
      area := if 2 < parts.length then String.mk (joinU ((parts.drop 1).dropLast))
              else "",
      city := String.mk ((parts.getLast?).getD []) }

/-- `stats_deduped_no_latlon.parse_filename_info`: as the
`build_central_db` variant but with `""` instead of `"unknown"` for the
degraded area. -/
def parse_filename_info_stats (filename : String) : FileMeta :=
  let name := filename.toList
  if startsWithL name "results_".toList && endsWithL name ".json".toList then
    parseCoreStats (splitU (dropEndL 5 (name.drop 8)))
  else
    { location_type := "unknown", area := "", city := "unknown" }

/-! ### Relational mapper and uploader (`upload_poi_to_pg.map_row`,
`upload_poi_to_pg.build_insert_sql`) -/

/-- A CSV row from `csv.DictReader`: header names mapped to the raw
string cells of the row. -/
abbrev CsvRow := List (String × String)

/-- `row.get(k)`: `None` when the column is absent. -/
def getS (row : CsvRow) (k : String) : Option String :=
  (row.find? (fun p => p.1 = k)).map Prod.snd

/-- Python `a or b` on optional strings: `None` and the empty string are
falsy. -/
def pyOr (a b : Option String) : Option String :=
  match a with
  | some s => if s = "" then b else some s
  | none => b

/-- `x or ""` appearing at the end of an `or` chain. -/
def orEmpty (o : Option String) : String :=
  match o with
  | some s => s
  | none => ""

/-- `s.strip()`. -/
def strip (s : String) : String := String.mk (trimL s.toList)

/-- `s[:n]`: truncation to at most `n` characters. -/
def takeChars (n : ℕ) (s : String) : String := String.mk (s.toList.take n)

/-- `" + ".join(parts)`. -/
def joinPlus : List String → String
  | [] => ""
  | [p] => p
  | p :: ps => p ++ " + " ++ joinPlus ps

/-- `s or None`: empty strings become `NULL`. -/
def orNone (s : String) : Option String :=
  if s = "" then none else some s

/-- One `float(x) if x not in (None, "") else None` conversion inside the
`try` block of `map_row`; `Except.error` models the `ValueError`. -/
def tryFloat (o : Option String) : Except Unit (Option ℚ) :=
  match o with
  | none => Except.ok none
  | some t =>
    if t = "" then Except.ok none
    else
      match parsePyFloat t with
      | some q => Except.ok (some q)
      | none => Except.error ()

/-- The whole `try`/`except ValueError` block of `map_row`: the two
conversions run sequentially inside one guarded block, and a failure of
either resets BOTH coordinates to `None`. -/
def parseLatLonPair (latS lonS : Option String) : Option ℚ × Option ℚ :=
  match tryFloat latS, tryFloat lonS with
  | Except.ok a, Except.ok b => (a, b)
  | _, _ => (none, none)

/-- A row of the destination table `skytron_api_pointofinterests`; every
column nullable, `none` = SQL `NULL`. Timestamps are abstracted to `ℕ`. -/
structure PgRow where
  status2 : Option String
  status : Option String
  mark_type : Option String
  use_type : Option String
  location : Option String
  radius : Option ℚ
  name : Option String
  description : Option String
  created : Option ℕ
  updated : Option ℕ
  created_by_id : Option ℤ
  updated_by_id : Option ℤ
  speed_limit : Option ℤ
  alert_type : Option String
  lat : Option ℚ
  lon : Option ℚ
  address : Option String
  pluscode : Option String
  area : Option String
  city : Option String
  state : Option String
  pincode : Option String
  phone : Option String
  website : Option String
deriving DecidableEq

/-- The defaults dictionary assembled in `upload_poi_to_pg.main` from the
CLI arguments, restricted to the keys `map_row` reads. -/
structure UploadDefaults where
  updated_by_id : ℤ
  use_type : Option String
  radius_default : Option ℚ
  speed_limit_override : Option ℤ
  alert_type_override : Option String

/-- `upload_poi_to_pg.map_row`: map one CSV row onto the destination
schema; `none` is the skip signal for rows without a name. -/
def map_row (row : CsvRow) (defaults : UploadDefaults) (now : ℕ) :
    Option PgRow :=
  let name0 := strip (orEmpty (getS row "name"))
  if name0 = "" then none
  else
    let name := takeChars 50 name0
    let raw_address := strip (orEmpty (getS row "address"))
    let formatted_address := strip (orEmpty (getS row "formatted_address"))
    let plus_code := strip (orEmpty (pyOr (getS row "plus_code") (getS row "pluscode")))
    let area := strip (orEmpty (getS row "area"))
    let city := strip (orEmpty (getS row "city"))
    let desc_parts := [raw_address, plus_code, area, city, formatted_address]
    let descJoin := joinPlus (desc_parts.filter (fun p => p ≠ ""))
    let description := if descJoin = "" then name else descJoin
    let latlon := parseLatLonPair (getS row "lat") (getS row "lon")
    let lat := latlon.1
    let lon := latlon.2
    let location :=
      match lat, lon with
      | some a, some b => "[[" ++ pyFloatRepr a ++ "," ++ pyFloatRepr b ++ "]]"
      | _, _ => if descJoin = "" then name else descJoin
    let use_type_src := orEmpty (pyOr (getS row "location_type") defaults.use_type)
    let use_type := if use_type_src = "" then none
                    else some (takeChars 20 use_type_src)
    some {
      status2 := some "Active"
      status := some "Active"
      mark_type := some "Point"
      use_type := use_type
      location := some location
      radius := defaults.radius_default
      name := some name
      description := some description
      created := some now
      updated := some now
      created_by_id := some 1
      updated_by_id := some defaults.updated_by_id
      speed_limit := defaults.speed_limit_override
      alert_type := some (orEmpty (pyOr defaults.alert_type_override (some "none")))
      lat := lat
      lon := lon
      address := orNone descJoin
      pluscode := orNone plus_code
      area := orNone area
      city := orNone city
      state := orNone (strip (orEmpty (getS row "state")))
      pincode := orNone (strip (orEmpty (getS row "pincode")))
      phone := orNone (strip (orEmpty (getS row "phone")))
      website := orNone (strip (orEmpty (getS row "website"))) }

/-- SQL `COALESCE(a, b)`. -/
def coalesce {α : Type} (a b : Option α) : Option α :=
  match a with
  | some x => some x
  | none => b

/-- The `ON CONFLICT (name) DO UPDATE SET` clause `build_insert_sql`
emits for conflict policy `update`, applied to the stored row `t` and
the incoming (`EXCLUDED`) row `e`: `updated`/`updated_by_id` are taken
from the incoming row, fourteen further columns are coalesced to the
stored value when the incoming one is `NULL`, and every column not in
the `SET` list keeps its stored value. -/
def conflict_update (t e : PgRow) : PgRow :=
  { t with
    updated := e.updated
    updated_by_id := e.updated_by_id
    mark_type := coalesce e.mark_type t.mark_type
    use_type := coalesce e.use_type t.use_type
    location := coalesce e.location t.location
    lat := coalesce e.lat t.lat
    lon := coalesce e.lon t.lon
    address := coalesce e.address t.address
    pluscode := coalesce e.pluscode t.pluscode
    area := coalesce e.area t.area
    city := coalesce e.city t.city
    state := coalesce e.state t.state
    pincode := coalesce e.pincode t.pincode
    phone := coalesce e.phone t.phone
    website := coalesce e.website t.website }

/-- The claim-side reading of "parses as numeric" for one coordinate
string on its own: present, non-empty and parseable. -/
def numVal (o : Option String) : Option ℚ :=
  match o with
  | none => none
  | some s => if s = "" then none else parsePyFloat s

/-- The textual fallback the claim describes for `location`: the
`" + "`-joined non-empty address parts, or the (truncated) name when
that concatenation is empty. -/
def location_fallback (row : CsvRow) : String :=
  let parts := [strip (orEmpty (getS row "address")),
                strip (orEmpty (pyOr (getS row "plus_code") (getS row "pluscode"))),
                strip (orEmpty (getS row "area")),
                strip (orEmpty (getS row "city")),
                strip (orEmpty (getS row "formatted_address"))]
  let j := joinPlus (parts.filter (fun p => p ≠ ""))
  if j = "" then takeChars 50 (strip (orEmpty (getS row "name"))) else j

/-- The `location` value as the claim words it: the bracket pattern when
both coordinate strings parse as numeric, the textual fallback
otherwise. -/
def location_spec (row : CsvRow) : String :=
  match numVal (getS row "lat"), numVal (getS row "lon") with
  | some a, some b => "[[" ++ pyFloatRepr a ++ "," ++ pyFloatRepr b ++ "]]"
  | _, _ => location_fallback row

/-- The all-`NULL` destination row, used as a harmless `getD` fallback
when extracting the result of a `map_row` call known to succeed. -/
def pgEmpty : PgRow :=
  { status2 := none, status := none, mark_type := none, use_type := none,
    location := none, radius := none, name := none, description := none,
    created := none, updated := none, created_by_id := none,
    updated_by_id := none, speed_limit := none, alert_type := none,
    lat := none, lon := none, address := none, pluscode := none,
    area := none, city := none, state := none, pincode := none,
    phone := none, website := none }

/-- The CLI defaults of `upload_poi_to_pg.parse_args` with no overrides. -/
def upDefaults0 : UploadDefaults :=
  { updated_by_id := 1, use_type := some "public", radius_default := none,
    speed_limit_override := none, alert_type_override := none }

/-- A stored row for the upsert scenario: non-empty description, phone
`"12345"`. -/
def c4target : PgRow :=
  { pgEmpty with
    status2 := some "Active", status := some "Active",
    mark_type := some "Point", location := some "OldLoc",
    name := some "Alpha", description := some "OldAddr",
    created := some 0, updated := some 0, created_by_id := some 1,
    updated_by_id := some 1, alert_type := some "none",
    phone := some "12345" }

/-- An incoming (`EXCLUDED`) row carrying a new, set description and an
unset phone. -/
def c4incoming : PgRow :=
  { pgEmpty with
    status2 := some "Active", status := some "Active",
    mark_type := some "Point", location := some "NewLoc",
    name := some "Alpha", description := some "NewAddr",
    created := some 1, updated := some 1, created_by_id := some 1,
    updated_by_id := some 2, alert_type := some "none" }

/-- The re-uploaded CSV row of the phone scenario: same name, empty
phone cell. -/
def c4row : CsvRow := [("name", "Alpha"), ("phone", "")]

/-- The mapped image of `c4row`. -/
def c4mapped : PgRow := (map_row c4row upDefaults0 0).getD pgEmpty

/-- A CSV row with no coordinate columns at all. -/
def c8row : CsvRow := [("name", "Beta"), ("city", "Pune")]

/-- The mapped image of `c8row`. -/
def c8mapped : PgRow := (map_row c8row upDefaults0 0).getD pgEmpty

/-- A CSV row with a valid latitude and a malformed longitude. -/
def c10row : CsvRow := [("name", "Gamma"), ("lat", "12"), ("lon", "abc")]

/-- The mapped image of `c10row`. -/
def c10mapped : PgRow := (map_row c10row upDefaults0 0).getD pgEmpty

theorem cellAt_of_not_hasColumn {df : List Entry} {r : Entry} {c : String}
    (hmem : r ∈ df) (hcol : hasColumn df c = false) : cellAt r c = Cell.na := by
  have hnone : getVal r c = none := by
    by_contra hne
    have hsome : (getVal r c).isSome := Option.ne_none_iff_isSome.mp hne
    have : df.any (fun r => (getVal r c).isSome) = true :=
      List.any_eq_true.mpr ⟨r, hmem, hsome⟩
    rw [hasColumn] at hcol
    simp [this] at hcol
  simp [cellAt, hnone]

theorem extractCoord_eq_firstNumeric (cands : List String) (df : List Entry)
    (r : Entry) (hmem : r ∈ df) :
    extractCoord cands df r = firstNumeric cands r := by
  induction cands with
  | nil => rfl
  | cons c rest ih =>
    by_cases hcol : hasColumn df c
    · simp only [extractCoord, presentSources, List.filter_cons, hcol,
        if_true, List.map_cons, bfillFirst, List.findSome?_cons] at *
      cases hq : toNumeric (cellAt r c) with
      | some q => simp [firstNumeric, hq]
      | none => simpa [firstNumeric, hq] using ih
    · have hcol' : hasColumn df c = false := by simpa using hcol
      have hna : cellAt r c = Cell.na := cellAt_of_not_hasColumn hmem hcol'
      simp only [extractCoord, presentSources, List.filter_cons, hcol',
        Bool.false_eq_true, if_false] at *
      simpa [firstNumeric, hna, toNumeric] using ih

theorem firstNumeric_append_resolved {l₁ : List String} (l₂ : List String)
    {r : Entry} {q : ℚ} (h : firstNumeric l₁ r = some q) :
    firstNumeric (l₁ ++ l₂) r = some q := by
  induction l₁ with
  | nil => simp [firstNumeric] at h
  | cons c rest ih =>
    simp only [firstNumeric, List.cons_append] at h ⊢
    cases hq : toNumeric (cellAt r c) with
    | some p => rw [hq] at h; simpa [hq] using h
    | none => rw [hq] at h; exact ih h

theorem firstNumeric_congr {l : List String} {r r' : Entry}
    (hagree : ∀ c ∈ l, toNumeric (cellAt r c) = toNumeric (cellAt r' c)) :
    firstNumeric l r = firstNumeric l r' := by
  induction l with
  | nil => rfl
  | cons c rest ih =>
    have hc := hagree c (List.mem_cons_self c rest)
    have hrest : ∀ c' ∈ rest, toNumeric (cellAt r c') = toNumeric (cellAt r' c') :=
      fun c' hc' => hagree c' (List.mem_cons_of_mem c hc')
    simp only [firstNumeric, hc, ih hrest]

/-- C1: for every row of a dataframe the canonical latitude (resp.
longitude) is the value of the first candidate column in the fixed
priority list whose cell is present and numerically parseable — absent
and non-numeric candidates are skipped, and `NaN` results when no
candidate resolves (all captured by the first-present-and-parseable
scan `firstNumeric`); moreover, once a prefix `l₁` of the candidate list
resolves, the values of the candidates after that prefix are irrelevant:
any row agreeing on the prefix yields the same canonical value. -/
theorem canonical_coord_first_candidate_wins :
    (∀ (df : List Entry) (r : Entry), r ∈ df →
       extractCoord LAT_CANDIDATES df r = firstNumeric LAT_CANDIDATES r ∧
       extractCoord LON_CANDIDATES df r = firstNumeric LON_CANDIDATES r) ∧
    (∀ (l₁ l₂ : List String) (r r' : Entry) (q : ℚ),
       firstNumeric l₁ r = some q →
       (∀ c ∈ l₁, toNumeric (cellAt r c) = toNumeric (cellAt r' c)) →
       firstNumeric (l₁ ++ l₂) r = some q ∧ firstNumeric (l₁ ++ l₂) r' = some q) := by
  constructor
  · intro df r hmem
    exact ⟨extractCoord_eq_firstNumeric _ _ _ hmem,
           extractCoord_eq_firstNumeric _ _ _ hmem⟩
  · intro l₁ l₂ r r' q hres hagree
    refine ⟨firstNumeric_append_resolved l₂ hres, ?_⟩
    have : firstNumeric l₁ r' = some q := (firstNumeric_congr hagree) ▸ hres
    exact firstNumeric_append_resolved l₂ this

/-- Closed instance of C1: a concrete dataframe whose row stores latitude
only under `latitude`, with a non-numeric `lat`, resolves to the later
candidate; and a resolving prefix fixes the result. -/
theorem canonical_coord_first_candidate_wins_witness :
    extractCoord LAT_CANDIDATES [[("lat", Cell.str "x"), ("latitude", Cell.num 5)]]
        [("lat", Cell.str "x"), ("latitude", Cell.num 5)]
      = firstNumeric LAT_CANDIDATES [("lat", Cell.str "x"), ("latitude", Cell.num 5)] ∧
    firstNumeric (["lat"] ++ ["latitude"]) [("lat", Cell.num 7)] = some 7 :=
  ⟨(canonical_coord_first_candidate_wins.1 _ _ (by decide)).1,
   (canonical_coord_first_candidate_wins.2 ["lat"] ["latitude"]
      [("lat", Cell.num 7)] [("lat", Cell.num 7)] 7 (by decide) (by decide)).1⟩

/-- C2: every row retained by `filter_valid_lat_lon` has finite
coordinates inside `[-90, 90] × [-180, 180]`; and the scenario row whose
only latitude candidate is the string `"91"` is dropped from the
validated combined table while the no-lat/lon deduplicated variant,
which applies no coordinate filter, keeps it. -/
theorem valid_latlon_invariant :
    (∀ (rows : List CanonRow) (r : CanonRow), r ∈ filter_valid_lat_lon rows →
       (∀ a, r.lat = some a → -90 ≤ a ∧ a ≤ 90) ∧
       (∀ b, r.lon = some b → -180 ≤ b ∧ b ≤ 180) ∧
       r.lat.isSome = true ∧ r.lon.isSome = true) ∧
    (filter_valid_lat_lon (extract_lat_lon_columns c2df) = [] ∧
     drop_duplicates (statsKey c2df) c2df = c2df) := by
  refine ⟨?_, by decide, by decide⟩
  intro rows r hr
  have hpred := (List.mem_filter.mp hr).2
  simp only [Bool.and_eq_true] at hpred
  obtain ⟨⟨hlat, hlon⟩, hflat, hflon⟩ := hpred
  refine ⟨?_, ?_, ?_, ?_⟩
  · intro a ha
    rw [ha] at hlat
    simp only [betweenB, Bool.and_eq_true, decide_eq_true_eq] at hlat
    exact hlat
  · intro b hb
    rw [hb] at hlon
    simp only [betweenB, Bool.and_eq_true, decide_eq_true_eq] at hlon
    exact hlon
  · exact hflat
  · exact hflon

/-- Closed instance of C2: an in-range row retained by the filter indeed
satisfies the range bounds. -/
theorem valid_latlon_invariant_witness :
    ((-90 : ℚ) ≤ 10 ∧ (10 : ℚ) ≤ 90) ∧ ((-180 : ℚ) ≤ 20 ∧ (20 : ℚ) ≤ 180) :=
  ⟨(valid_latlon_invariant.1
      [⟨[], some 10, some 20⟩] ⟨[], some 10, some 20⟩ (by decide)).1 10 rfl,
   (valid_latlon_invariant.1
      [⟨[], some 10, some 20⟩] ⟨[], some 10, some 20⟩ (by decide)).2.1 20 rfl⟩

/-- C3 counterexample: a present-but-empty `formatted_address` is NOT
treated as absent — `Series.notna()` is true on the empty string, so the
synthesized address of the scenario row is `""`, not the claimed
`"Main St Area"` from `vicinity`. -/
theorem address_empty_formatted_not_absent_cex :
    pyStr (build_address_column c3df c3row2) = "" ∧
    pyStr (build_address_column c3df c3row2) ≠ "Main St Area" := by decide

/-- C3 amended: with both address columns present, the synthesized
address is `formatted_address` whenever that cell is non-missing —
including when it is the empty string — else `vicinity` when
non-missing, else the empty string; in the scenario the two synthesized
addresses are `"12 Main St"` and `""`, and both rows survive
deduplication since their identity keys differ. -/
theorem address_synthesis_rule :
    (∀ (df : List Entry) (r : Entry),
       hasColumn df "formatted_address" = true →
       hasColumn df "vicinity" = true →
       build_address_column df r =
         (match cellAt r "formatted_address" with
          | Cell.na =>
            (match cellAt r "vicinity" with
             | Cell.na => Cell.str ""
             | v => v)
          | f => f)) ∧
    (pyStr (build_address_column c3df c3row1) = "12 Main St" ∧
     pyStr (build_address_column c3df c3row2) = "" ∧
     drop_duplicates (statsKey c3df) c3df = c3df) := by
  refine ⟨?_, by decide, by decide, by decide⟩
  intro df r hf hv
  simp only [build_address_column, hf, hv, if_true]
  cases hcf : cellAt r "formatted_address" with
  | na =>
    cases hcv : cellAt r "vicinity" with
    | na => simp [notNA, fillNA]
    | num q => simp [notNA, fillNA]
    | str s => simp [notNA, fillNA]
  | num q => simp [notNA, fillNA]
  | str s => simp [notNA, fillNA]

/-- Closed instance of C3 (amended): the rule applied to the
empty-formatted-address scenario row evaluates to the empty string. -/
theorem address_synthesis_rule_witness :
    build_address_column c3df c3row2 = Cell.str "" := by
  have h := address_synthesis_rule.1 c3df c3row2 (by decide) (by decide)
  simpa using h

theorem key_not_mem_seen_of_mem_dedupAux {α κ : Type} [DecidableEq κ]
    {key : α → κ} :
    ∀ (xs : List α) (seen : List κ) (y : α),
      y ∈ dedupAux key seen xs → key y ∉ seen := by
  intro xs
  induction xs with
  | nil => intro seen y hy; simp [dedupAux] at hy
  | cons x xs ih =>
    intro seen y hy
    by_cases hx : key x ∈ seen
    · rw [dedupAux, if_pos hx] at hy
      exact ih seen y hy
    · rw [dedupAux, if_neg hx] at hy
      rcases List.mem_cons.mp hy with rfl | hy'
      · exact hx
      · intro hseen
        exact ih _ y hy' (List.mem_cons_of_mem _ hseen)

theorem pairwise_key_dedupAux {α κ : Type} [DecidableEq κ] {key : α → κ} :
    ∀ (xs : List α) (seen : List κ),
      (dedupAux key seen xs).Pairwise (fun a b => key a ≠ key b) := by
  intro xs
  induction xs with
  | nil => intro seen; simp [dedupAux]
  | cons x xs ih =>
    intro seen
    by_cases hx : key x ∈ seen
    · rw [dedupAux, if_pos hx]; exact ih seen
    · rw [dedupAux, if_neg hx]
      refine List.pairwise_cons.mpr ⟨?_, ih _⟩
      intro y hy heq
      exact key_not_mem_seen_of_mem_dedupAux xs (key x :: seen) y hy
        (by simp [← heq])

theorem dedupAux_eq_self {α κ : Type} [DecidableEq κ] {key : α → κ} :
    ∀ (xs : List α) (seen : List κ),
      (∀ y ∈ xs, key y ∉ seen) →
      xs.Pairwise (fun a b => key a ≠ key b) →
      dedupAux key seen xs = xs := by
  intro xs
  induction xs with
  | nil => intro seen _ _; rfl
  | cons x xs ih =>
    intro seen hseen hpw
    have hx : key x ∉ seen := hseen x (List.mem_cons_self _ _)
    rw [dedupAux, if_neg hx]
    congr 1
    apply ih
    · intro y hy hmem
      rcases List.mem_cons.mp hmem with heq | hmem'
      · exact absurd heq.symm ((List.pairwise_cons.mp hpw).1 y hy)
      · exact hseen y (List.mem_cons_of_mem _ hy) hmem'
    · exact (List.pairwise_cons.mp hpw).2

/-- C9: deduplication (first occurrence per key, in scan order) is
idempotent — stated for the pipeline's exact `(name, address)` identity
key and for an arbitrary key function: rerunning `drop_duplicates` on
its own output removes zero rows. -/
theorem drop_duplicates_idempotent :
    (∀ (df xs : List Entry),
       drop_duplicates (statsKey df) (drop_duplicates (statsKey df) xs)
         = drop_duplicates (statsKey df) xs) ∧
    (∀ (α κ : Type) (_inst : DecidableEq κ) (key : α → κ) (xs : List α),
       drop_duplicates key (drop_duplicates key xs) = drop_duplicates key xs ∧
       (drop_duplicates key (drop_duplicates key xs)).length
         = (drop_duplicates key xs).length) := by
  have main : ∀ (α κ : Type) (_ : DecidableEq κ) (key : α → κ) (xs : List α),
      drop_duplicates key (drop_duplicates key xs) = drop_duplicates key xs := by
    intro α κ _instK key xs
    exact dedupAux_eq_self _ _ (fun y _ h => (List.not_mem_nil _ h))
      (pairwise_key_dedupAux _ _)
  exact ⟨fun df xs => main _ _ _ (statsKey df) xs,
         fun α κ inst key xs =>
           ⟨main α κ inst key xs, by rw [main α κ inst key xs]⟩⟩

/-- Closed instance of C9: rerunning the deduplicator on the scenario
dataframe's deduplicated output changes nothing. -/
theorem drop_duplicates_idempotent_witness :
    drop_duplicates (statsKey c3df) (drop_duplicates (statsKey c3df) c3df)
      = drop_duplicates (statsKey c3df) c3df :=
  drop_duplicates_idempotent.1 c3df c3df

theorem firstListVal_skip {fs : List (String × Json)} :
    ∀ (l₁ ks : List String),
      (∀ k' ∈ l₁, ∀ w, jsonGet fs k' ≠ some (Json.arr w)) →
      firstListVal fs (l₁ ++ ks) = firstListVal fs ks := by
  intro l₁
  induction l₁ with
  | nil => intro ks _; rfl
  | cons k' l₁ ih =>
    intro ks hskip
    have hk' := hskip k' (List.mem_cons_self _ _)
    have hrest : ∀ k ∈ l₁, ∀ w, jsonGet fs k ≠ some (Json.arr w) :=
      fun k hk => hskip k (List.mem_cons_of_mem _ hk)
    rw [List.cons_append, firstListVal]
    cases hg : jsonGet fs k' with
    | none => simpa using ih ks hrest
    | some j =>
      cases j with
      | arr w => exact absurd hg (hk' w)
      | obj fsx => simpa using ih ks hrest
      | str s => simpa using ih ks hrest
      | num q => simpa using ih ks hrest
      | bool b => simpa using ih ks hrest
      | null => simpa using ih ks hrest

theorem firstListVal_none {fs : List (String × Json)} :
    ∀ (ks : List String),
      (∀ k ∈ ks, ∀ w, jsonGet fs k ≠ some (Json.arr w)) →
      firstListVal fs ks = none := by
  intro ks hskip
  have h := @firstListVal_skip fs ks [] (by simpa using hskip)
  simpa using h

/-- C5 counterexample: a file whose text fails JSON parsing makes the
loader raise — `json.load` is called with no handler, so the decode
error propagates and aborts the batch, contradicting the claim that
malformed files never raise. -/
theorem load_entries_malformed_file_raises_cex :
    load_entries_file none = Except.error () := rfl

/-- C5 amended: for every file whose content parses as JSON, the loader
never raises and dispatches on shape exactly as claimed — a sequence is
used directly, a mapping yields the value of the first key among
`results`, `data`, `items`, `places` whose value is a sequence, a
mapping with no such key becomes a one-element sequence, and any other
shape yields the empty sequence; a file that fails JSON parsing,
however, raises and aborts the batch. -/
theorem load_entries_shape_policy :
    (∀ xs, load_entries (Json.arr xs) = xs) ∧
    (∀ (fs : List (String × Json)) (l₁ : List String) (k : String)
       (l₂ : List String) (v : List Json),
       wrapperKeys = l₁ ++ k :: l₂ →
       (∀ k' ∈ l₁, ∀ w, jsonGet fs k' ≠ some (Json.arr w)) →
       jsonGet fs k = some (Json.arr v) →
       load_entries (Json.obj fs) = v) ∧
    (∀ fs, (∀ k ∈ wrapperKeys, ∀ w, jsonGet fs k ≠ some (Json.arr w)) →
       load_entries (Json.obj fs) = [Json.obj fs]) ∧
    (∀ s, load_entries (Json.str s) = []) ∧
    (∀ q, load_entries (Json.num q) = []) ∧
    (∀ b, load_entries (Json.bool b) = []) ∧
    load_entries Json.null = [] ∧
    (∀ j, load_entries_file (some j) = Except.ok (load_entries j)) := by
  refine ⟨fun xs => rfl, ?_, ?_, fun s => rfl, fun q => rfl, fun b => rfl,
          rfl, fun j => rfl⟩
  · intro fs l₁ k l₂ v hsplit hskip hk
    rw [load_entries, hsplit, firstListVal_skip l₁ (k :: l₂) hskip,
        firstListVal, hk]
    rfl
  · intro fs hnone
    rw [load_entries, firstListVal_none wrapperKeys hnone]
    rfl

/-- Closed instance of C5 (amended): a mapping wrapping its records
under `results` yields exactly that list. -/
theorem load_entries_shape_policy_witness :
    load_entries (Json.obj [("results", Json.arr [])]) = [] :=
  load_entries_shape_policy.2.1 [("results", Json.arr [])]
    [] "results" ["data", "items", "places"] [] rfl (by simp) rfl

theorem startsWithL_append (p s : List Char) : startsWithL (p ++ s) p = true := by
  induction p with
  | nil => cases s <;> rfl
  | cons c cs ih => simp [startsWithL, ih]

theorem endsWithL_append (s p : List Char) : endsWithL (s ++ p) p = true := by
  rw [endsWithL, List.reverse_append]
  exact startsWithL_append p.reverse s.reverse

theorem splitU_no_sep : ∀ {l : List Char}, '_' ∉ l → splitU l = [l] := by
  intro l
  induction l with
  | nil => intro _; rfl
  | cons c cs ih =>
    intro h
    have hc : ¬ (c = '_') := fun heq => h (heq ▸ List.mem_cons_self _ _)
    have hcs : '_' ∉ cs := fun hm => h (List.mem_cons_of_mem _ hm)
    simp [splitU, hc, ih hcs]

theorem splitU_sep_append :
    ∀ {l : List Char} (r : List Char), '_' ∉ l →
      splitU (l ++ '_' :: r) = l :: splitU r := by
  intro l
  induction l with
  | nil => intro r _; simp [splitU]
  | cons c cs ih =>
    intro r h
    have hc : ¬ (c = '_') := fun heq => h (heq ▸ List.mem_cons_self _ _)
    have hcs : '_' ∉ cs := fun hm => h (List.mem_cons_of_mem _ hm)
    simp [splitU, hc, ih r hcs]

theorem toList_mk (l : List Char) : (String.mk l).toList = l := rfl

theorem parse_filename_info_core (m : List Char) :
    parse_filename_info (String.mk ("results_".toList ++ (m ++ ".json".toList)))
      = parseCore (splitU m) := by
  have h1 : startsWithL ("results_".toList ++ (m ++ ".json".toList))
      "results_".toList = true := startsWithL_append _ _
  have h2 : endsWithL ("results_".toList ++ (m ++ ".json".toList))
      ".json".toList = true := by
    rw [← List.append_assoc]
    exact endsWithL_append _ _
  have hdrop : ("results_".toList ++ (m ++ ".json".toList)).drop 8
      = m ++ ".json".toList := by simp
  have hcore : dropEndL 5 (m ++ ".json".toList) = m := by
    rw [dropEndL, List.length_append]
    simp [List.take_left]
  rw [parse_filename_info]
  simp only [toList_mk, h1, h2, Bool.and_self, if_true, hdrop, hcore]

theorem parse_filename_info_stats_core (m : List Char) :
    parse_filename_info_stats (String.mk ("results_".toList ++ (m ++ ".json".toList)))
      = parseCoreStats (splitU m) := by
  have h1 : startsWithL ("results_".toList ++ (m ++ ".json".toList))
      "results_".toList = true := startsWithL_append _ _
  have h2 : endsWithL ("results_".toList ++ (m ++ ".json".toList))
      ".json".toList = true := by
    rw [← List.append_assoc]
    exact endsWithL_append _ _
  have hdrop : ("results_".toList ++ (m ++ ".json".toList)).drop 8
      = m ++ ".json".toList := by simp
  have hcore : dropEndL 5 (m ++ ".json".toList) = m := by
    rw [dropEndL, List.length_append]
    simp [List.take_left]
  rw [parse_filename_info_stats]
  simp only [toList_mk, h1, h2, Bool.and_self, if_true, hdrop, hcore]

theorem filename_as_core (pre mid post : String)
    (h : pre = "results_" ∧ post = ".json") :
    pre ++ mid ++ post
      = String.mk ("results_".toList ++ (mid.toList ++ ".json".toList)) := by
  obtain ⟨h1, h2⟩ := h
  subst h1; subst h2
  apply String.ext
  simp [String.data_append, String.toList]

theorem mk_toList (s : String) : String.mk s.toList = s := rfl

theorem mk_append_sep (b c : String) :
    String.mk (b.data ++ '_' :: c.data) = b ++ "_" ++ c := by
  apply String.ext
  simp [String.data_append]

/-- C6 counterexample: `results_hospital.json` does not match the
three-field grammar (its core holds a single token), yet parsing echoes
that token as the city instead of returning the `"unknown"` sentinel
for all three fields. -/
theorem parse_filename_nonmatching_cex :
    parse_filename_info "results_hospital.json"
      = ⟨"unknown", "unknown", "hospital"⟩ ∧
    ("hospital" : String) ≠ "unknown" := by decide

/-- C6 amended: parsing never raises, and degrades in two distinct ways:
a filename failing the `results_`/`.json` envelope yields the sentinel
`"unknown"` for all three fields in `build_central_db` (the stats
variant uses `""` for the area); an envelope-matching filename whose
core is a single underscore-free token yields the sentinel for location
type and area but echoes the token as the city. -/
theorem parse_filename_fallbacks :
    (∀ s : String,
       (startsWithL s.toList "results_".toList &&
        endsWithL s.toList ".json".toList) = false →
       parse_filename_info s = ⟨"unknown", "unknown", "unknown"⟩ ∧
       parse_filename_info_stats s = ⟨"unknown", "", "unknown"⟩) ∧
    (∀ a : String, '_' ∉ a.toList →
       parse_filename_info ("results_" ++ a ++ ".json")
         = ⟨"unknown", "unknown", a⟩ ∧
       parse_filename_info_stats ("results_" ++ a ++ ".json")
         = ⟨"unknown", "", a⟩) := by
  constructor
  · intro s h
    constructor
    · rw [parse_filename_info]
      simp only [h, Bool.false_eq_true, if_false]
    · rw [parse_filename_info_stats]
      simp only [h, Bool.false_eq_true, if_false]
  · intro a ha
    have hname : "results_" ++ a ++ ".json"
        = String.mk ("results_".toList ++ (a.toList ++ ".json".toList)) :=
      filename_as_core "results_" a ".json" ⟨rfl, rfl⟩
    rw [hname, parse_filename_info_core, parse_filename_info_stats_core,
        splitU_no_sep ha]
    constructor
    · simp [parseCore, mk_toList]
    · simp [parseCoreStats, mk_toList]

/-- Closed instance of C6 (amended): the single-token filename parses to
the two sentinels plus the echoed token. -/
theorem parse_filename_fallbacks_witness :
    parse_filename_info ("results_" ++ "hospital" ++ ".json")
      = ⟨"unknown", "unknown", "hospital"⟩ :=
  (parse_filename_fallbacks.2 "hospital" (by decide)).1

/-- C7: a filename `results_A_B_C.json` with underscore-free tokens
parses to location type `A`, area `B`, city `C`; with four tokens
`results_A_B_C_D.json`, the middle tokens are rejoined with an
underscore into the area `B_C` and the city is `D`. -/
theorem parse_filename_grammar :
    (∀ a b c : String, '_' ∉ a.toList → '_' ∉ b.toList → '_' ∉ c.toList →
       parse_filename_info ("results_" ++ a ++ "_" ++ b ++ "_" ++ c ++ ".json")
         = ⟨a, b, c⟩) ∧
    (∀ a b c d : String,
       '_' ∉ a.toList → '_' ∉ b.toList → '_' ∉ c.toList → '_' ∉ d.toList →
       parse_filename_info
           ("results_" ++ a ++ "_" ++ b ++ "_" ++ c ++ "_" ++ d ++ ".json")
         = ⟨a, b ++ "_" ++ c, d⟩) := by
  constructor
  · intro a b c ha hb hc
    have hname : "results_" ++ a ++ "_" ++ b ++ "_" ++ c ++ ".json"
        = String.mk ("results_".toList ++
            ((a.toList ++ '_' :: (b.toList ++ '_' :: c.toList)) ++
             ".json".toList)) := by
      apply String.ext
      simp [String.data_append, String.toList]
    rw [hname, parse_filename_info_core, splitU_sep_append _ ha,
        splitU_sep_append _ hb, splitU_no_sep hc]
    simp [parseCore, joinU, mk_toList]
  · intro a b c d ha hb hc hd
    have hname : "results_" ++ a ++ "_" ++ b ++ "_" ++ c ++ "_" ++ d ++ ".json"
        = String.mk ("results_".toList ++
            ((a.toList ++ '_' ::
              (b.toList ++ '_' :: (c.toList ++ '_' :: d.toList))) ++
             ".json".toList)) := by
      apply String.ext
      simp [String.data_append, String.toList]
    rw [hname, parse_filename_info_core, splitU_sep_append _ ha,
        splitU_sep_append _ hb, splitU_sep_append _ hc, splitU_no_sep hd]
    simp [parseCore, joinU, mk_toList, mk_append_sep]

/-- Closed instance of C7: a three-token and a four-token filename parse
to the expected triples. -/
theorem parse_filename_grammar_witness :
    parse_filename_info ("results_" ++ "hospital" ++ "_" ++ "park" ++ "_" ++
        "pune" ++ ".json")
      = ⟨"hospital", "park", "pune"⟩ ∧
    parse_filename_info ("results_" ++ "police" ++ "_" ++ "mg" ++ "_" ++
        "road" ++ "_" ++ "pune" ++ ".json")
      = ⟨"police", "mg" ++ "_" ++ "road", "pune"⟩ :=
  ⟨parse_filename_grammar.1 "hospital" "park" "pune"
     (by decide) (by decide) (by decide),
   parse_filename_grammar.2 "police" "mg" "road" "pune"
     (by decide) (by decide) (by decide) (by decide)⟩

/-- C4 counterexample: `description` is a mutable destination field
(neither identity nor creation audit) and the incoming row carries a set
value for it, yet the conflict update leaves the stored description
unchanged — the `DO UPDATE SET` list omits `description` (and `status`,
`status2`, `radius`, `speed_limit`, `alert_type`), so not every mutable
field is overwritten with coalesce semantics. -/
theorem conflict_update_not_all_mutable_cex :
    c4incoming.description = some "NewAddr" ∧
    (conflict_update c4target c4incoming).description = some "OldAddr" ∧
    coalesce c4incoming.description c4target.description = some "NewAddr" :=
  ⟨rfl, rfl, rfl⟩

/-- C4 amended: under conflict policy `update` the statement refreshes a
fixed subset of columns — `updated` and `updated_by_id` are taken from
the incoming row, and fourteen columns (`mark_type`, `use_type`,
`location`, `lat`, `lon`, `address`, `pluscode`, `area`, `city`,
`state`, `pincode`, `phone`, `website`) are overwritten with
coalesce-to-existing-when-incoming-is-unset semantics — while `name`,
`created`, `created_by_id`, `description`, `status`, `status2`,
`radius`, `speed_limit` and `alert_type` keep their stored values; in
particular, re-uploading a row whose phone cell is empty maps the phone
to unset and therefore leaves a previously stored phone unchanged. -/
theorem conflict_update_semantics :
    (∀ t e : PgRow,
       (conflict_update t e).updated = e.updated ∧
       (conflict_update t e).updated_by_id = e.updated_by_id ∧
       (conflict_update t e).mark_type = coalesce e.mark_type t.mark_type ∧
       (conflict_update t e).use_type = coalesce e.use_type t.use_type ∧
       (conflict_update t e).location = coalesce e.location t.location ∧
       (conflict_update t e).lat = coalesce e.lat t.lat ∧
       (conflict_update t e).lon = coalesce e.lon t.lon ∧
       (conflict_update t e).address = coalesce e.address t.address ∧
       (conflict_update t e).pluscode = coalesce e.pluscode t.pluscode ∧
       (conflict_update t e).area = coalesce e.area t.area ∧
       (conflict_update t e).city = coalesce e.city t.city ∧
       (conflict_update t e).state = coalesce e.state t.state ∧
       (conflict_update t e).pincode = coalesce e.pincode t.pincode ∧
       (conflict_update t e).phone = coalesce e.phone t.phone ∧
       (conflict_update t e).website = coalesce e.website t.website ∧
       (conflict_update t e).name = t.name ∧
       (conflict_update t e).created = t.created ∧
       (conflict_update t e).created_by_id = t.created_by_id ∧
       (conflict_update t e).description = t.description ∧
       (conflict_update t e).status = t.status ∧
       (conflict_update t e).status2 = t.status2 ∧
       (conflict_update t e).radius = t.radius ∧
       (conflict_update t e).speed_limit = t.speed_limit ∧
       (conflict_update t e).alert_type = t.alert_type) ∧
    (∀ (row : CsvRow) (d : UploadDefaults) (now : ℕ) (t r : PgRow),
       map_row row d now = some r →
       strip (orEmpty (getS row "phone")) = "" →
       r.phone = none ∧ (conflict_update t r).phone = t.phone) := by
  constructor
  · intro t e
    refine ⟨rfl, rfl, rfl, rfl, rfl, rfl, rfl, rfl, rfl, rfl, rfl, rfl,
            rfl, rfl, rfl, rfl, rfl, rfl, rfl, rfl, rfl, rfl, rfl, rfl⟩
  · intro row d now t r h hphone
    rw [map_row] at h
    by_cases hn : strip (orEmpty (getS row "name")) = ""
    · rw [if_pos hn] at h
      exact absurd h (by simp)
    · rw [if_neg hn] at h
      have hr : r.phone = orNone (strip (orEmpty (getS row "phone"))) := by
        have := (Option.some.injEq _ _).mp h
        rw [← this]
      rw [hphone] at hr
      have hrp : r.phone = none := by simpa [orNone] using hr
      exact ⟨hrp, by simp [conflict_update, coalesce, hrp]⟩

/-- Closed instance of C4 (amended): mapping the empty-phone row and
replaying it against the stored row keeps the stored phone `"12345"`. -/
theorem conflict_update_semantics_witness :
    c4mapped.phone = none ∧
    (conflict_update c4target c4mapped).phone = c4target.phone :=
  conflict_update_semantics.2 c4row upDefaults0 0 c4target c4mapped
    (by decide) (by decide)

theorem tryFloat_ok_eq_numVal {o : Option String} {v : Option ℚ}
    (h : tryFloat o = Except.ok v) : v = numVal o := by
  cases o with
  | none =>
    simp only [tryFloat] at h
    cases h
    rfl
  | some t =>
    by_cases ht : t = ""
    · simp only [tryFloat, ht, if_pos] at h
      cases h
      simp [numVal, ht]
    · simp only [tryFloat, if_neg ht] at h
      cases hp : parsePyFloat t with
      | some q => rw [hp] at h; cases h; simp [numVal, ht, hp]
      | none => rw [hp] at h; cases h

theorem tryFloat_error_numVal {o : Option String}
    (h : tryFloat o = Except.error ()) : numVal o = none := by
  cases o with
  | none => simp [tryFloat] at h
  | some t =>
    by_cases ht : t = ""
    · simp [tryFloat, ht] at h
    · simp only [tryFloat, if_neg ht] at h
      cases hp : parsePyFloat t with
      | some q => rw [hp] at h; cases h
      | none => simp [numVal, ht, hp]

theorem bracket_ne_empty (x y : String) :
    "[[" ++ x ++ "," ++ y ++ "]]" ≠ "" := by
  intro h
  have hd := congrArg String.data h
  simp [String.data_append] at hd

theorem takeChars50_ne_empty {s : String} (hs : s ≠ "") :
    takeChars 50 s ≠ "" := by
  intro h
  have hd : s.toList.take 50 = [] := congrArg String.data h
  rcases List.take_eq_nil_iff.mp hd with h50 | hnil
  · exact absurd h50 (by decide)
  · exact hs (by rw [← mk_toList s, hnil])

theorem location_fallback_ne_empty {row : CsvRow}
    (hn : strip (orEmpty (getS row "name")) ≠ "") :
    location_fallback row ≠ "" := by
  rw [location_fallback]
  by_cases hj : joinPlus
      (([strip (orEmpty (getS row "address")),
         strip (orEmpty (pyOr (getS row "plus_code") (getS row "pluscode"))),
         strip (orEmpty (getS row "area")),
         strip (orEmpty (getS row "city")),
         strip (orEmpty (getS row "formatted_address"))]).filter
        (fun p => p ≠ "")) = ""
  · rw [if_pos hj]
    exact takeChars50_ne_empty hn
  · rw [if_neg hj]
    exact hj

/-- C8: for every mapped row, `location` is the literal bracket pattern
embedding the two coordinates whenever both coordinate strings parse as
numeric, and otherwise the `" + "`-joined concatenation of the non-empty
address parts or the (truncated) name when that concatenation is empty —
and it is never unset or empty. -/
theorem map_row_location_is_spec
    (row : CsvRow) (d : UploadDefaults) (now : ℕ) (r : PgRow)
    (h : map_row row d now = some r) :
    r.location = some (location_spec row) ∧ location_spec row ≠ "" := by
  rw [map_row] at h
  by_cases hn : strip (orEmpty (getS row "name")) = ""
  · rw [if_pos hn] at h
    exact absurd h (by simp)
  · rw [if_neg hn] at h
    injection h with hr
    subst hr
    constructor
    · show some _ = some (location_spec row)
      rw [location_spec]
      rcases hlat : tryFloat (getS row "lat") with e | av
      · rcases hlon : tryFloat (getS row "lon") with e2 | bv
        all_goals
          cases e
          rw [tryFloat_error_numVal hlat]
          simp [parseLatLonPair, hlat, location_fallback]
      · rcases hlon : tryFloat (getS row "lon") with e2 | bv
        · cases e2
          rw [tryFloat_error_numVal hlon]
          cases numVal (getS row "lat") <;>
            simp [parseLatLonPair, hlat, hlon, location_fallback]
        · rw [← tryFloat_ok_eq_numVal hlat, ← tryFloat_ok_eq_numVal hlon]
          cases av <;> cases bv <;>
            simp [parseLatLonPair, hlat, hlon, location_fallback]
    · rw [location_spec]
      rcases numVal (getS row "lat") with _ | a
      · exact location_fallback_ne_empty hn
      · rcases numVal (getS row "lon") with _ | b
        · exact location_fallback_ne_empty hn
        · exact bracket_ne_empty _ _

/-- Closed instance of C8: the coordinate-free row maps to the textual
composite `"Pune"`, which is indeed non-empty. -/
theorem map_row_location_is_spec_witness :
    c8mapped.location = some (location_spec c8row) ∧
    location_spec c8row ≠ "" :=
  map_row_location_is_spec c8row upDefaults0 0 c8mapped (by decide)

/-- C10: the two coordinate strings are converted inside one guarded
block, so when either string is non-empty but unparseable the mapped row
gets BOTH `lat` and `lon` unset — a valid coordinate on the other axis
is discarded — and `location` falls back to the textual composite. -/
theorem map_row_latlon_coupled
    (row : CsvRow) (d : UploadDefaults) (now : ℕ) (r : PgRow) (s : String)
    (h : map_row row d now = some r)
    (hbad : (getS row "lat" = some s ∧ s ≠ "" ∧ parsePyFloat s = none) ∨
            (getS row "lon" = some s ∧ s ≠ "" ∧ parsePyFloat s = none)) :
    r.lat = none ∧ r.lon = none ∧
    r.location = some (location_fallback row) := by
  rw [map_row] at h
  by_cases hn : strip (orEmpty (getS row "name")) = ""
  · rw [if_pos hn] at h
    exact absurd h (by simp)
  · rw [if_neg hn] at h
    injection h with hr
    subst hr
    have herr : tryFloat (getS row "lat") = Except.error () ∨
        tryFloat (getS row "lon") = Except.error () := by
      rcases hbad with ⟨hg, hne, hp⟩ | ⟨hg, hne, hp⟩
      · exact Or.inl (by simp [tryFloat, hg, hne, hp])
      · exact Or.inr (by simp [tryFloat, hg, hne, hp])
    have hpair : parseLatLonPair (getS row "lat") (getS row "lon")
        = (none, none) := by
      rcases herr with herr | herr
      · rcases hlon : tryFloat (getS row "lon") with e2 | bv <;>
          simp [parseLatLonPair, herr, hlon]
      · rcases hlat : tryFloat (getS row "lat") with e2 | av <;>
          simp [parseLatLonPair, herr, hlat]
    refine ⟨?_, ?_, ?_⟩
    · show (parseLatLonPair (getS row "lat") (getS row "lon")).1 = none
      rw [hpair]
    · show (parseLatLonPair (getS row "lat") (getS row "lon")).2 = none
      rw [hpair]
    · show some _ = some (location_fallback row)
      rw [location_fallback]
      simp [hpair]

/-- Closed instance of C10: a row with `lat="12"` and `lon="abc"` maps
to unset coordinates on both axes and a textual location. -/
theorem map_row_latlon_coupled_witness :
    c10mapped.lat = none ∧ c10mapped.lon = none ∧
    c10mapped.location = some (location_fallback c10row) :=
  map_row_latlon_coupled c10row upDefaults0 0 c10mapped "abc"
    (by decide) (Or.inr ⟨by decide, by decide, by decide⟩)

end MapDataBot
